import Mathlib

/-!
# Verification of the off-chain tick/range engine

Shallow embedding of the price↔tick conversion, range construction and
rebalance-decision logic of the repository
(Phase3_Smart_Contract/test/utils/price_utils.py,
Phase3_Smart_Contract/test/baseline/baseline_test.py).

Conventions of the embedding:
* Python integers are ℤ; Python `//` is `Int.fdiv` and `%` is `Int.fmod`
  (floor division / sign-of-divisor remainder, exactly Python semantics).
* Python floats are modelled as real numbers: `math.sqrt` is `Real.sqrt`,
  `math.log` is `Real.log`, and `int(x)` (truncation toward zero) is
  `pyInt`.  Floating-point rounding, overflow and underflow are not
  modelled; all concrete inputs used below stay far from any rounding
  boundary.
* A Python function that lets an exception escape is modelled with
  `Option` (`none` = uncaught exception); a `try/except` handler that
  returns a default value is modelled by returning that default on the
  condition that raises.
-/

/-- Uniswap V3 global minimum tick (constant in price_utils.py). -/
def MIN_TICK : ℤ := -887272

/-- Uniswap V3 global maximum tick (constant in price_utils.py). -/
def MAX_TICK : ℤ := 887272

/-- Python `int(x)` applied to a float: truncation toward zero
(floor for nonnegative arguments, ceiling for negative ones). -/
noncomputable def pyInt (x : ℝ) : ℤ :=
  if 0 ≤ x then ⌊x⌋ else ⌈x⌉

namespace TickCalculator

/-- `TickCalculator.floor_to_tick_spacing` (price_utils.py lines 19-28):
```
if tick_spacing <= 0:
    return tick
compressed = tick // tick_spacing
if tick < 0 and tick % tick_spacing != 0:
    compressed -= 1
return compressed * tick_spacing
```
Note that Python `//` already floors, and the code then decrements once
more for negative non-multiples. -/
def floor_to_tick_spacing (tick tick_spacing : ℤ) : ℤ :=
  if tick_spacing ≤ 0 then tick
  else
    (if tick < 0 ∧ Int.fmod tick tick_spacing ≠ 0
     then Int.fdiv tick tick_spacing - 1
     else Int.fdiv tick tick_spacing) * tick_spacing

/-- `TickCalculator.price_to_tick` (price_utils.py lines 30-62).
The whole body is wrapped in `try/except` returning the default tick `0`;
the exception path that is reachable in the real-number model is
`price_adjusted ≤ 0` (ZeroDivisionError on `1/price_adjusted` or
math-domain error in `math.sqrt`).  The intermediate `sqrt_ratio_x96`
of lines 49-52 is dead code for the returned tick and is omitted. -/
noncomputable def price_to_tick (price : ℝ) (token0_decimals token1_decimals : ℤ) : ℤ :=
  let decimal_adjustment := token1_decimals - token0_decimals
  let price_adjusted := price * (10 : ℝ) ^ decimal_adjustment
  if price_adjusted ≤ 0 then 0
  else
    let sqrt_price := Real.sqrt (1 / price_adjusted)
    let tick := pyInt (Real.log sqrt_price / (0.5 * Real.log 1.0001))
    max MIN_TICK (min MAX_TICK tick)

/-- Half width of `TickCalculator.calculate_tick_range`
(price_utils.py lines 77-80). -/
def tick_range_half_width (tick_spacing range_multiplier : ℤ) : ℤ :=
  let half_width := Int.fdiv (tick_spacing * range_multiplier) 2
  if half_width ≤ 0 then tick_spacing else half_width

/-- Lower tick of `TickCalculator.calculate_tick_range` after alignment
(price_utils.py lines 83, 87). -/
def tick_range_lower_aligned (current_tick tick_spacing range_multiplier : ℤ) : ℤ :=
  floor_to_tick_spacing (current_tick - tick_range_half_width tick_spacing range_multiplier)
    tick_spacing

/-- Upper tick of `TickCalculator.calculate_tick_range` after alignment
(price_utils.py lines 84, 88). -/
def tick_range_upper_aligned (current_tick tick_spacing range_multiplier : ℤ) : ℤ :=
  floor_to_tick_spacing (current_tick + tick_range_half_width tick_spacing range_multiplier)
    tick_spacing

/-- Upper tick of `TickCalculator.calculate_tick_range` after the
`if upper_tick <= lower_tick: upper_tick = lower_tick + tick_spacing`
fix-up (price_utils.py lines 91-92). -/
def tick_range_upper_fixed (current_tick tick_spacing range_multiplier : ℤ) : ℤ :=
  let upper_tick := tick_range_upper_aligned current_tick tick_spacing range_multiplier
  let lower_tick := tick_range_lower_aligned current_tick tick_spacing range_multiplier
  if upper_tick ≤ lower_tick then lower_tick + tick_spacing else upper_tick

/-- `TickCalculator.calculate_tick_range` (price_utils.py lines 64-98):
half width, raw bounds, alignment, lower-than fix-up, and finally
clamping `lower = max(MIN_TICK, lower)`, `upper = min(MAX_TICK, upper)`.
Note that the clamp happens AFTER alignment and after the fix-up. -/
def calculate_tick_range (current_tick tick_spacing range_multiplier : ℤ) : ℤ × ℤ :=
  (max MIN_TICK (tick_range_lower_aligned current_tick tick_spacing range_multiplier),
   min MAX_TICK (tick_range_upper_fixed current_tick tick_spacing range_multiplier))

end TickCalculator

namespace price_utils

/-- Module-level `calculate_tick_range` (price_utils.py lines 149-166):
same half width, but here the bounds are clamped to
`[MIN_TICK, MAX_TICK]` FIRST and aligned with plain Python floor
division `(t // spacing) * spacing` afterwards. -/
def calculate_tick_range (center_tick tick_spacing range_multiplier : ℤ) : ℤ × ℤ :=
  let half_width0 := Int.fdiv (tick_spacing * range_multiplier) 2
  let half_width := if half_width0 ≤ 0 then tick_spacing else half_width0
  let lower_tick := max MIN_TICK (center_tick - half_width)
  let upper_tick := min MAX_TICK (center_tick + half_width)
  (Int.fdiv lower_tick tick_spacing * tick_spacing,
   Int.fdiv upper_tick tick_spacing * tick_spacing)

/-- Module-level `price_to_tick` (price_utils.py lines 168-180).
It has no `try/except` and no clamping, and divides by
`LOG_1_0001` rather than `0.5 * LOG_1_0001`; an input with
`price_adjusted ≤ 0` raises an uncaught exception (`none`).
The intermediate `sqrt_price_x96` of line 176 is dead code for the
returned tick and is omitted. -/
noncomputable def price_to_tick (price : ℝ) (token0_decimals token1_decimals : ℤ) : Option ℤ :=
  let decimal_adjustment := token1_decimals - token0_decimals
  let price_adjusted := price * (10 : ℝ) ^ decimal_adjustment
  if price_adjusted ≤ 0 then none
  else
    let sqrt_price := Real.sqrt (1 / price_adjusted)
    some (pyInt (Real.log sqrt_price / Real.log 1.0001))

end price_utils

/-- The decision taken by one evaluation cycle of
`BaselineTest.adjust_position`: either skip (echoing the current range
into the final-tick telemetry) or call the adjustment function with the
target range. -/
inductive AdjustAction where
  | skip (tickLower tickUpper : ℤ)
  | adjust (tickLower tickUpper : ℤ)
deriving DecidableEq, Repr

namespace BaselineTest

/-- Decision core of `BaselineTest.adjust_position`
(baseline_test.py lines 292-330): with a current position present
(`active`), skip when BOTH `abs(target_lower - current_lower)` and
`abs(target_upper - current_upper)` are `≤ TICK_PROXIMITY_THRESHOLD`
(`= tick_spacing`); in every other case, including absence of a
position, proceed to call the contract with the target ticks.
The current position is `some (lower, upper)` when `active` and `none`
otherwise (the Python code stores `None` for the current ticks then). -/
def adjust_position (target_lower_tick target_upper_tick : ℤ)
    (position : Option (ℤ × ℤ)) (tick_spacing : ℤ) : AdjustAction :=
  match position with
  | none => .adjust target_lower_tick target_upper_tick
  | some (current_lower_tick, current_upper_tick) =>
    if |target_lower_tick - current_lower_tick| ≤ tick_spacing ∧
       |target_upper_tick - current_upper_tick| ≤ tick_spacing
    then .skip current_lower_tick current_upper_tick
    else .adjust target_lower_tick target_upper_tick

end BaselineTest

/-- The real-valued argument of the truncation in
`TickCalculator.price_to_tick`, written exactly as the spec writes it:
`ln(sqrtRatio) / (0.5 × ln(1.0001))` with
`sqrtRatio = sqrt(1 / (price × 10^(token1Decimals − token0Decimals)))`. -/
noncomputable def tick_formula (price : ℝ) (token0_decimals token1_decimals : ℤ) : ℝ :=
  Real.log (Real.sqrt (1 / (price * (10 : ℝ) ^ (token1_decimals - token0_decimals)))) /
    (0.5 * Real.log 1.0001)

/-- The tick the spec prescribes: `floor` of `tick_formula` (floor, not
truncation toward zero), clamped to `[MIN_TICK, MAX_TICK]`.  This
definition follows the wording of the spec and is compared against the
code definition `TickCalculator.price_to_tick`. -/
noncomputable def price_to_tick_floored (price : ℝ) (token0_decimals token1_decimals : ℤ) : ℤ :=
  max MIN_TICK (min MAX_TICK ⌊tick_formula price token0_decimals token1_decimals⌋)

/-! ## Helper lemmas (shared) -/

/-- Whenever the spacing is positive, `floor_to_tick_spacing` returns a
multiple of the spacing. -/
lemma floor_to_tick_spacing_dvd (tick s : ℤ) (hs : 0 < s) :
    s ∣ TickCalculator.floor_to_tick_spacing tick s := by
  unfold TickCalculator.floor_to_tick_spacing
  rw [if_neg (not_le.mpr hs)]
  exact dvd_mul_left s _

/-- Python floor-alignment, sandwiched: for positive spacing,
`(x // s) * s` is at most `x` and greater than `x - s`. -/
lemma fdiv_mul_self_bounds (x s : ℤ) (hs : 0 < s) :
    x - s < Int.fdiv x s * s ∧ Int.fdiv x s * s ≤ x := by
  rw [Int.fdiv_eq_ediv x hs.le]
  constructor
  · have h := Int.lt_ediv_add_one_mul_self x hs
    nlinarith [h]
  · exact Int.ediv_mul_le x (ne_of_gt hs)

/-- Python `int()` of an integer value is that integer. -/
lemma pyInt_intCast (z : ℤ) : pyInt (z : ℝ) = z := by
  unfold pyInt
  split_ifs <;> simp

/-- Python `int()` truncation is monotone. -/
lemma pyInt_mono {a b : ℝ} (h : a ≤ b) : pyInt a ≤ pyInt b := by
  unfold pyInt
  by_cases ha : 0 ≤ a
  · rw [if_pos ha, if_pos (le_trans ha h)]
    exact Int.floor_le_floor h
  · by_cases hb : 0 ≤ b
    · rw [if_neg ha, if_pos hb]
      have h1 : ⌈a⌉ ≤ 0 := Int.ceil_le.mpr (by exact_mod_cast (not_le.mp ha).le)
      have h2 : (0 : ℤ) ≤ ⌊b⌋ := Int.floor_nonneg.mpr hb
      omega
    · rw [if_neg ha, if_neg hb]
      exact Int.ceil_le_ceil h

/-- Truncation toward zero is at least the floor. -/
lemma floor_le_pyInt (x : ℝ) : ⌊x⌋ ≤ pyInt x := by
  unfold pyInt
  split_ifs
  · exact le_refl _
  · exact Int.floor_le_ceil x

/-- Truncation toward zero exceeds the floor by at most one. -/
lemma pyInt_le_floor_add_one (x : ℝ) : pyInt x ≤ ⌊x⌋ + 1 := by
  unfold pyInt
  split_ifs
  · omega
  · exact Int.ceil_le_floor_add_one x

/-- The logarithm of the tick base is positive. -/
lemma log_base_pos : 0 < Real.log 1.0001 := Real.log_pos (by norm_num)

/-- On positive adjusted prices, the argument of the truncation in
`TickCalculator.price_to_tick` simplifies to
`-(ln(adjustedRatio) / ln(1.0001))`. -/
lemma tick_formula_eq (price : ℝ) (d0 d1 : ℤ)
    (h : 0 < price * (10 : ℝ) ^ (d1 - d0)) :
    tick_formula price d0 d1 =
      -(Real.log (price * (10 : ℝ) ^ (d1 - d0)) / Real.log 1.0001) := by
  unfold tick_formula
  rw [Real.log_sqrt (by positivity), one_div, Real.log_inv]
  have hL : Real.log 1.0001 ≠ 0 := ne_of_gt log_base_pos
  rw [← neg_div, div_eq_div_iff (mul_ne_zero (by norm_num) hL) hL]
  ring

/-- On positive adjusted prices, `TickCalculator.price_to_tick` is the
clamped truncation of `tick_formula`. -/
lemma price_to_tick_pos_eq (price : ℝ) (d0 d1 : ℤ)
    (h : 0 < price * (10 : ℝ) ^ (d1 - d0)) :
    TickCalculator.price_to_tick price d0 d1 =
      max MIN_TICK (min MAX_TICK (pyInt (tick_formula price d0 d1))) := by
  simp only [TickCalculator.price_to_tick, tick_formula]
  rw [if_neg (not_le.mpr h)]

/-- On positive adjusted prices, the module-level `price_to_tick` is the
(unclamped) truncation of `-(ln(adjustedRatio) / (2 ln(1.0001)))`. -/
lemma price_to_tick_module_eq (price : ℝ) (d0 d1 : ℤ)
    (h : 0 < price * (10 : ℝ) ^ (d1 - d0)) :
    price_utils.price_to_tick price d0 d1 =
      some (pyInt (-(Real.log (price * (10 : ℝ) ^ (d1 - d0)) /
        (2 * Real.log 1.0001)))) := by
  simp only [price_utils.price_to_tick]
  rw [if_neg (not_le.mpr h)]
  rw [Real.log_sqrt (by positivity), one_div, Real.log_inv, div_div, neg_div]

/-! ## Claims about the class-level range computation (C1) -/

/-- Claim C1 (counterexample): `TickCalculator.calculate_tick_range`
violates its claimed postcondition on in-range inputs.  At center tick
`MAX_TICK = 887272` (which is within `halfWidth` of `MAX_TICK`), spacing
`60`, multiplier `4`, the returned upper tick is the clamp value
`887272`, which is not a multiple of the spacing; and at center tick
`MIN_TICK` with spacing `887273`, multiplier `1`, the returned pair has
`upper < lower`. -/
theorem C1_range_postcondition_fails :
    ((TickCalculator.calculate_tick_range 887272 60 4).2 = 887272 ∧
      ¬ (60 : ℤ) ∣ 887272) ∧
    (TickCalculator.calculate_tick_range (-887272) 887273 1).2 <
      (TickCalculator.calculate_tick_range (-887272) 887273 1).1 := by
  refine ⟨⟨by decide, by omega⟩, by decide⟩

/-- Claim C1 (amended): for a center tick within the global bounds,
positive spacing and multiplier ≥ 1, WHENEVER the final clamp step is a
no-op (the aligned lower tick is already ≥ MIN_TICK and the fixed upper
tick already ≤ MAX_TICK), `TickCalculator.calculate_tick_range` returns
`lower < upper`, both multiples of the spacing, both within
`[MIN_TICK, MAX_TICK]`.  Without that proviso the postcondition can
fail, because the code clamps AFTER aligning and fixing. -/
theorem C1_range_valid_when_clamp_noop (c s m : ℤ)
    (hc₁ : MIN_TICK ≤ c) (hc₂ : c ≤ MAX_TICK) (hs : 0 < s) (hm : 1 ≤ m)
    (hlo : MIN_TICK ≤ TickCalculator.tick_range_lower_aligned c s m)
    (hup : TickCalculator.tick_range_upper_fixed c s m ≤ MAX_TICK) :
    (TickCalculator.calculate_tick_range c s m).1 <
      (TickCalculator.calculate_tick_range c s m).2 ∧
    s ∣ (TickCalculator.calculate_tick_range c s m).1 ∧
    s ∣ (TickCalculator.calculate_tick_range c s m).2 ∧
    MIN_TICK ≤ (TickCalculator.calculate_tick_range c s m).1 ∧
    (TickCalculator.calculate_tick_range c s m).1 ≤ MAX_TICK ∧
    MIN_TICK ≤ (TickCalculator.calculate_tick_range c s m).2 ∧
    (TickCalculator.calculate_tick_range c s m).2 ≤ MAX_TICK := by
  have h1 : (TickCalculator.calculate_tick_range c s m).1 =
      TickCalculator.tick_range_lower_aligned c s m := max_eq_right hlo
  have h2 : (TickCalculator.calculate_tick_range c s m).2 =
      TickCalculator.tick_range_upper_fixed c s m := min_eq_right hup
  have hdl : s ∣ TickCalculator.tick_range_lower_aligned c s m :=
    floor_to_tick_spacing_dvd _ _ hs
  have hlt : TickCalculator.tick_range_lower_aligned c s m <
      TickCalculator.tick_range_upper_fixed c s m := by
    simp only [TickCalculator.tick_range_upper_fixed]
    split_ifs with hle
    · omega
    · omega
  have hdu : s ∣ TickCalculator.tick_range_upper_fixed c s m := by
    simp only [TickCalculator.tick_range_upper_fixed]
    split_ifs with hle
    · exact dvd_add hdl dvd_rfl
    · simp only [TickCalculator.tick_range_upper_aligned]
      exact floor_to_tick_spacing_dvd _ _ hs
  rw [h1, h2]
  exact ⟨hlt, hdl, hdu, hlo, le_trans hlt.le hup, le_trans hlo hlt.le, hup⟩

/-- Witness for C1 (amended) at center 0, spacing 60, multiplier 4. -/
theorem C1_range_valid_when_clamp_noop_witness :
    (TickCalculator.calculate_tick_range 0 60 4).1 <
      (TickCalculator.calculate_tick_range 0 60 4).2 ∧
    (60 : ℤ) ∣ (TickCalculator.calculate_tick_range 0 60 4).1 ∧
    (60 : ℤ) ∣ (TickCalculator.calculate_tick_range 0 60 4).2 ∧
    MIN_TICK ≤ (TickCalculator.calculate_tick_range 0 60 4).1 ∧
    (TickCalculator.calculate_tick_range 0 60 4).1 ≤ MAX_TICK ∧
    MIN_TICK ≤ (TickCalculator.calculate_tick_range 0 60 4).2 ∧
    (TickCalculator.calculate_tick_range 0 60 4).2 ≤ MAX_TICK :=
  C1_range_valid_when_clamp_noop 0 60 4 (by decide) (by decide) (by decide)
    (by decide) (by decide) (by decide)

/-! ## Claims about the rebalance decision (C5, C6) -/

/-- Claim C5: against an active position, the evaluator skips exactly
when both tick drifts are within the threshold (one tick spacing), and
adjusts with the target range otherwise; in particular a target equal to
the current range is always skipped. -/
theorem C5_proximity_skip_iff (tl tu cl cu s : ℤ) (hs : 0 < s) :
    (BaselineTest.adjust_position tl tu (some (cl, cu)) s =
        AdjustAction.skip cl cu ↔ |tl - cl| ≤ s ∧ |tu - cu| ≤ s) ∧
    (¬(|tl - cl| ≤ s ∧ |tu - cu| ≤ s) →
      BaselineTest.adjust_position tl tu (some (cl, cu)) s =
        AdjustAction.adjust tl tu) ∧
    (tl = cl → tu = cu →
      BaselineTest.adjust_position tl tu (some (cl, cu)) s =
        AdjustAction.skip cl cu) := by
  by_cases hcond : |tl - cl| ≤ s ∧ |tu - cu| ≤ s
  · refine ⟨?_, fun hc => absurd hcond hc, fun _ _ => ?_⟩
    · simp [BaselineTest.adjust_position, hcond]
    · simp [BaselineTest.adjust_position, hcond]
  · refine ⟨?_, fun _ => ?_, fun h1 h2 => ?_⟩
    · simp [BaselineTest.adjust_position, hcond]
    · simp [BaselineTest.adjust_position, hcond]
    · exfalso
      apply hcond
      subst h1
      subst h2
      simp only [sub_self, abs_zero]
      exact ⟨hs.le, hs.le⟩

/-- Witness for C5 at the concrete scenario of the spec (target (80,120),
current (80,120), spacing 10). -/
theorem C5_proximity_skip_iff_witness :
    (BaselineTest.adjust_position 80 120 (some (80, 120)) 10 =
        AdjustAction.skip 80 120 ↔
      |(80 : ℤ) - 80| ≤ 10 ∧ |(120 : ℤ) - 120| ≤ 10) ∧
    (¬(|(80 : ℤ) - 80| ≤ 10 ∧ |(120 : ℤ) - 120| ≤ 10) →
      BaselineTest.adjust_position 80 120 (some (80, 120)) 10 =
        AdjustAction.adjust 80 120) ∧
    ((80 : ℤ) = 80 → (120 : ℤ) = 120 →
      BaselineTest.adjust_position 80 120 (some (80, 120)) 10 =
        AdjustAction.skip 80 120) :=
  C5_proximity_skip_iff 80 120 80 120 10 (by norm_num)

/-- Claim C6: with no active position the evaluator unconditionally
decides to adjust with the target range, and never skips. -/
theorem C6_no_position_forces_adjust (tl tu s : ℤ) :
    BaselineTest.adjust_position tl tu none s = AdjustAction.adjust tl tu ∧
    ∀ cl cu : ℤ,
      BaselineTest.adjust_position tl tu none s ≠ AdjustAction.skip cl cu :=
  ⟨rfl, fun _ _ heq => AdjustAction.noConfusion heq⟩

/-! ## Claims about tick-spacing alignment (C7, C8) -/

/-- Claim C7 (code evaluated at the failing input): for tick `-5` and
spacing `10` the code returns `-20`, although the nearest lower multiple
of the spacing — Python floor division already gives it — is `-10`.
The code decrements the already-floored quotient once more, a slip
carried over from languages whose integer division truncates. -/
theorem C7_floor_to_tick_spacing_double_decrement :
    TickCalculator.floor_to_tick_spacing (-5) 10 = -20 ∧
    Int.fdiv (-5) 10 * 10 = -10 := by decide

/-- Claim C8 (counterexample): with spacing `0` the alignment does not
fail: it silently returns the input tick. -/
theorem C8_zero_spacing_returns_tick :
    TickCalculator.floor_to_tick_spacing 7 0 = 7 := by decide

/-- Claim C8 (amended): for every non-positive spacing,
`floor_to_tick_spacing` silently returns the input tick unchanged
instead of failing with a configuration error. -/
theorem C8_nonpositive_spacing_identity (tick s : ℤ) (hs : s ≤ 0) :
    TickCalculator.floor_to_tick_spacing tick s = tick := by
  unfold TickCalculator.floor_to_tick_spacing
  rw [if_pos hs]

/-- Witness for C8 (amended) at tick 5, spacing -3. -/
theorem C8_nonpositive_spacing_identity_witness :
    TickCalculator.floor_to_tick_spacing 5 (-3) = 5 :=
  C8_nonpositive_spacing_identity 5 (-3) (by norm_num)

/-! ## Claims about the module-level range computation (C10) -/

/-- Claim C10 (counterexample): the module-level `calculate_tick_range`
clamps BEFORE aligning, and alignment pushes the clamped lower bound
back below `MIN_TICK`: at center `-887272`, spacing `60`, multiplier
`4`, the lower bound comes out as `-887280 < MIN_TICK`. -/
theorem C10_aligned_lower_below_min :
    price_utils.calculate_tick_range (-887272) 60 4 = (-887280, -887160) ∧
    (price_utils.calculate_tick_range (-887272) 60 4).1 < MIN_TICK := by
  exact ⟨by decide, by decide⟩

/-- Claim C10 (amended): for every center tick, positive spacing and
multiplier ≥ 1, the module-level `calculate_tick_range` keeps the upper
bound at most `MAX_TICK` and the lower bound above `MIN_TICK - spacing`
(both bounds are multiples of the spacing); the lower bound itself can
land below `MIN_TICK` by up to `spacing - 1` ticks. -/
theorem C10_module_range_bounds (c s m : ℤ) (hs : 0 < s) (hm : 1 ≤ m) :
    MIN_TICK - s < (price_utils.calculate_tick_range c s m).1 ∧
    (price_utils.calculate_tick_range c s m).2 ≤ MAX_TICK ∧
    s ∣ (price_utils.calculate_tick_range c s m).1 ∧
    s ∣ (price_utils.calculate_tick_range c s m).2 := by
  have key : price_utils.calculate_tick_range c s m =
      (Int.fdiv (max MIN_TICK
          (c - (if Int.fdiv (s * m) 2 ≤ 0 then s else Int.fdiv (s * m) 2))) s * s,
       Int.fdiv (min MAX_TICK
          (c + (if Int.fdiv (s * m) 2 ≤ 0 then s else Int.fdiv (s * m) 2))) s * s) := rfl
  rw [key]
  dsimp only
  set hw := if Int.fdiv (s * m) 2 ≤ 0 then s else Int.fdiv (s * m) 2 with hhw
  have hblo := fdiv_mul_self_bounds (max MIN_TICK (c - hw)) s hs
  have hbup := fdiv_mul_self_bounds (min MAX_TICK (c + hw)) s hs
  have hmaxlo : MIN_TICK ≤ max MIN_TICK (c - hw) := le_max_left _ _
  have hminup : min MAX_TICK (c + hw) ≤ MAX_TICK := min_le_left _ _
  exact ⟨by omega, by omega, dvd_mul_left s _, dvd_mul_left s _⟩

/-- Witness for C10 (amended) at center 0, spacing 60, multiplier 4. -/
theorem C10_module_range_bounds_witness :
    MIN_TICK - 60 < (price_utils.calculate_tick_range 0 60 4).1 ∧
    (price_utils.calculate_tick_range 0 60 4).2 ≤ MAX_TICK ∧
    (60 : ℤ) ∣ (price_utils.calculate_tick_range 0 60 4).1 ∧
    (60 : ℤ) ∣ (price_utils.calculate_tick_range 0 60 4).2 :=
  C10_module_range_bounds 0 60 4 (by norm_num) (by norm_num)

/-! ## Claims about the class-level price→tick conversion (C2, C3, C4) -/

/-- Claim C2 (counterexample): at the invalid price `-1`, the conversion
does not surface a distinct error; it returns the default tick `0`,
indistinguishable from a genuine tick result. -/
theorem C2_invalid_price_returns_default_tick :
    TickCalculator.price_to_tick (-1) 6 6 = 0 := by
  simp only [TickCalculator.price_to_tick]
  rw [if_pos (by norm_num)]

/-- Claim C2 (amended): for every price ≤ 0 the conversion catches the
resulting exception and returns the default tick `0` — a valid-looking
tick, not a visible `InvalidPrice` failure. -/
theorem C2_nonpositive_price_yields_default (price : ℝ) (d0 d1 : ℤ)
    (h : price ≤ 0) :
    TickCalculator.price_to_tick price d0 d1 = 0 := by
  have h10 : (0 : ℝ) < (10 : ℝ) ^ (d1 - d0) := zpow_pos (by norm_num) _
  have hadj : price * (10 : ℝ) ^ (d1 - d0) ≤ 0 :=
    mul_nonpos_iff.mpr (Or.inr ⟨h, h10.le⟩)
  simp only [TickCalculator.price_to_tick]
  rw [if_pos hadj]

/-- Witness for C2 (amended) at price -2 with decimals 8 and 6. -/
theorem C2_nonpositive_price_yields_default_witness :
    TickCalculator.price_to_tick (-2) 8 6 = 0 :=
  C2_nonpositive_price_yields_default (-2) 8 6 (by norm_num)

/-- Claim C3 (counterexample): the conversion is not monotone in the
price: for `1 < 10000` (same decimals on both sides) the tick of price
`1` is strictly greater than the tick of price `10000`. -/
theorem C3_monotonicity_fails :
    ¬ (TickCalculator.price_to_tick 1 6 6 ≤
        TickCalculator.price_to_tick 10000 6 6) := by
  have hadj1 : (0 : ℝ) < 1 * (10 : ℝ) ^ ((6 : ℤ) - 6) := by norm_num
  have hadj2 : (0 : ℝ) < 10000 * (10 : ℝ) ^ ((6 : ℤ) - 6) := by norm_num
  have e1 : TickCalculator.price_to_tick 1 6 6 = 0 := by
    rw [price_to_tick_pos_eq 1 6 6 hadj1]
    have hv : tick_formula 1 6 6 = 0 := by
      rw [tick_formula_eq 1 6 6 hadj1]
      norm_num [Real.log_one]
    rw [hv, show (0 : ℝ) = ((0 : ℤ) : ℝ) by norm_num, pyInt_intCast]
    norm_num [MIN_TICK, MAX_TICK]
  have e2 : TickCalculator.price_to_tick 10000 6 6 ≤ -1 := by
    rw [price_to_tick_pos_eq 10000 6 6 hadj2]
    have hL : 0 < Real.log 1.0001 := log_base_pos
    have hv : tick_formula 10000 6 6 ≤ -1 := by
      rw [tick_formula_eq 10000 6 6 hadj2]
      have hle : Real.log 1.0001 ≤
          Real.log (10000 * (10 : ℝ) ^ ((6 : ℤ) - 6)) :=
        Real.log_le_log (by norm_num) (by norm_num)
      have h1 : (1 : ℝ) ≤
          Real.log (10000 * (10 : ℝ) ^ ((6 : ℤ) - 6)) / Real.log 1.0001 :=
        (one_le_div hL).mpr hle
      linarith
    have hp : pyInt (tick_formula 10000 6 6) ≤ -1 := by
      have hm := pyInt_mono
        (show tick_formula 10000 6 6 ≤ ((-1 : ℤ) : ℝ) by exact_mod_cast hv)
      rwa [pyInt_intCast] at hm
    have hmin : min MAX_TICK (pyInt (tick_formula 10000 6 6)) ≤ -1 :=
      le_trans (min_le_right _ _) hp
    exact max_le (by norm_num [MIN_TICK]) hmin
  intro hle
  rw [e1] at hle
  omega

/-- Claim C3 (amended): the conversion is ANTITONE in the price — the
code computes the tick of `sqrt(1/adjustedRatio)`, so a larger price
gives a smaller (or equal) tick. -/
theorem C3_price_to_tick_antitone (p1 p2 : ℝ) (d0 d1 : ℤ)
    (h1 : 0 < p1) (h12 : p1 < p2) :
    TickCalculator.price_to_tick p2 d0 d1 ≤
      TickCalculator.price_to_tick p1 d0 d1 := by
  have hE : (0 : ℝ) < (10 : ℝ) ^ (d1 - d0) := zpow_pos (by norm_num) _
  have ha1 : 0 < p1 * (10 : ℝ) ^ (d1 - d0) := mul_pos h1 hE
  have ha2 : 0 < p2 * (10 : ℝ) ^ (d1 - d0) := mul_pos (h1.trans h12) hE
  rw [price_to_tick_pos_eq p1 d0 d1 ha1, price_to_tick_pos_eq p2 d0 d1 ha2]
  have hform : tick_formula p2 d0 d1 ≤ tick_formula p1 d0 d1 := by
    rw [tick_formula_eq p1 d0 d1 ha1, tick_formula_eq p2 d0 d1 ha2]
    have hlog : Real.log (p1 * (10 : ℝ) ^ (d1 - d0)) ≤
        Real.log (p2 * (10 : ℝ) ^ (d1 - d0)) :=
      Real.log_le_log ha1 (mul_le_mul_of_nonneg_right h12.le hE.le)
    have hL : 0 < Real.log 1.0001 := log_base_pos
    exact neg_le_neg ((div_le_div_iff_of_pos_right hL).mpr hlog)
  exact max_le_max le_rfl (min_le_min le_rfl (pyInt_mono hform))

/-- Witness for C3 (amended) at prices 1 < 2, decimals 6 and 6. -/
theorem C3_price_to_tick_antitone_witness :
    TickCalculator.price_to_tick 2 6 6 ≤ TickCalculator.price_to_tick 1 6 6 :=
  C3_price_to_tick_antitone 1 2 6 6 (by norm_num) (by norm_num)

/-- Claim C4 (counterexample): the conversion truncates toward zero
instead of flooring.  At price `20001/20000 = 1.00005` the exact
logarithm value lies in `(-1, 0)`: the code returns `0` while the
floor-based tick prescribed by the spec is `-1`. -/
theorem C4_floor_vs_truncation_differ :
    TickCalculator.price_to_tick (20001 / 20000) 6 6 = 0 ∧
    price_to_tick_floored (20001 / 20000) 6 6 = -1 := by
  have hadj : (0 : ℝ) < 20001 / 20000 * (10 : ℝ) ^ ((6 : ℤ) - 6) := by norm_num
  have hL : 0 < Real.log 1.0001 := log_base_pos
  have hsimp : (20001 / 20000 : ℝ) * (10 : ℝ) ^ ((6 : ℤ) - 6) = 20001 / 20000 := by
    norm_num
  have hlogpos : 0 < Real.log ((20001 / 20000 : ℝ) * (10 : ℝ) ^ ((6 : ℤ) - 6)) := by
    rw [hsimp]
    exact Real.log_pos (by norm_num)
  have hloglt : Real.log ((20001 / 20000 : ℝ) * (10 : ℝ) ^ ((6 : ℤ) - 6)) <
      Real.log 1.0001 := by
    rw [hsimp]
    exact Real.log_lt_log (by norm_num) (by norm_num)
  have hv1 : -1 < tick_formula (20001 / 20000) 6 6 := by
    rw [tick_formula_eq _ _ _ hadj]
    have hd := (div_lt_one hL).mpr hloglt
    linarith
  have hv2 : tick_formula (20001 / 20000) 6 6 < 0 := by
    rw [tick_formula_eq _ _ _ hadj]
    have hd := div_pos hlogpos hL
    linarith
  constructor
  · rw [price_to_tick_pos_eq _ _ _ hadj]
    have hc : pyInt (tick_formula (20001 / 20000) 6 6) = 0 := by
      unfold pyInt
      rw [if_neg (not_le.mpr hv2)]
      have hub : ⌈tick_formula (20001 / 20000) 6 6⌉ ≤ 0 :=
        Int.ceil_le.mpr (by exact_mod_cast hv2.le)
      have hlb : (-1 : ℤ) < ⌈tick_formula (20001 / 20000) 6 6⌉ :=
        Int.lt_ceil.mpr (by exact_mod_cast hv1)
      omega
    rw [hc]
    norm_num [MIN_TICK, MAX_TICK]
  · unfold price_to_tick_floored
    have hf : ⌊tick_formula (20001 / 20000) 6 6⌋ = -1 := by
      have hub : ⌊tick_formula (20001 / 20000) 6 6⌋ < 0 :=
        Int.floor_lt.mpr (by exact_mod_cast hv2)
      have hlb : (-1 : ℤ) ≤ ⌊tick_formula (20001 / 20000) 6 6⌋ :=
        Int.le_floor.mpr (by exact_mod_cast hv1.le)
      omega
    rw [hf]
    norm_num [MIN_TICK, MAX_TICK]

/-- Claim C4 (amended): for every positive price, the tick is the
truncation TOWARD ZERO of `ln(sqrtRatio) / (0.5 × ln(1.0001))`, clamped
to `[MIN_TICK, MAX_TICK]`; since truncation is between the floor and
the floor plus one, the result is sandwiched between the clamped
floor-based tick of the spec and the clamp of `floor + 1`. -/
theorem C4_truncation_not_floor (price : ℝ) (d0 d1 : ℤ) (h : 0 < price) :
    TickCalculator.price_to_tick price d0 d1 =
      max MIN_TICK (min MAX_TICK (pyInt (tick_formula price d0 d1))) ∧
    price_to_tick_floored price d0 d1 ≤
      TickCalculator.price_to_tick price d0 d1 ∧
    TickCalculator.price_to_tick price d0 d1 ≤
      max MIN_TICK (min MAX_TICK (⌊tick_formula price d0 d1⌋ + 1)) := by
  have hadj : 0 < price * (10 : ℝ) ^ (d1 - d0) :=
    mul_pos h (zpow_pos (by norm_num) _)
  have he := price_to_tick_pos_eq price d0 d1 hadj
  refine ⟨he, ?_, ?_⟩
  · rw [he]
    unfold price_to_tick_floored
    exact max_le_max le_rfl (min_le_min le_rfl (floor_le_pyInt _))
  · rw [he]
    exact max_le_max le_rfl (min_le_min le_rfl (pyInt_le_floor_add_one _))

/-- Witness for C4 (amended) at price 1, decimals 6 and 6. -/
theorem C4_truncation_not_floor_witness :
    TickCalculator.price_to_tick 1 6 6 =
      max MIN_TICK (min MAX_TICK (pyInt (tick_formula 1 6 6))) ∧
    price_to_tick_floored 1 6 6 ≤ TickCalculator.price_to_tick 1 6 6 ∧
    TickCalculator.price_to_tick 1 6 6 ≤
      max MIN_TICK (min MAX_TICK (⌊tick_formula 1 6 6⌋ + 1)) :=
  C4_truncation_not_floor 1 6 6 (by norm_num)

/-! ## Claim C9: the two reimplementations in price_utils.py drift -/

/-- Claim C9: the class-level and the module-level price→tick
conversions in the same file disagree.  At price `1.0001⁴` (written as
the exact rational `10001⁴ / 10¹⁶`) with equal decimals, the class
method returns `-4` (it divides the log by `0.5·ln(1.0001)`), while the
module function returns `-2` (it divides by `ln(1.0001)`). -/
theorem C9_price_to_tick_variants_disagree :
    TickCalculator.price_to_tick ((10001 : ℝ) ^ 4 / 10 ^ 16) 18 18 = -4 ∧
    price_utils.price_to_tick ((10001 : ℝ) ^ 4 / 10 ^ 16) 18 18 = some (-2) ∧
    price_utils.price_to_tick ((10001 : ℝ) ^ 4 / 10 ^ 16) 18 18 ≠
      some (TickCalculator.price_to_tick ((10001 : ℝ) ^ 4 / 10 ^ 16) 18 18) := by
  have hL : 0 < Real.log 1.0001 := log_base_pos
  have hLne : Real.log 1.0001 ≠ 0 := ne_of_gt hL
  have hpa : ((10001 : ℝ) ^ 4 / 10 ^ 16) * (10 : ℝ) ^ ((18 : ℤ) - 18) =
      ((10001 / 10000 : ℝ)) ^ 4 := by
    norm_num [div_pow]
  have hadj : (0 : ℝ) <
      ((10001 : ℝ) ^ 4 / 10 ^ 16) * (10 : ℝ) ^ ((18 : ℤ) - 18) := by
    rw [hpa]
    positivity
  have hloga : Real.log (((10001 : ℝ) ^ 4 / 10 ^ 16) * (10 : ℝ) ^ ((18 : ℤ) - 18)) =
      4 * Real.log 1.0001 := by
    rw [hpa, show ((10001 / 10000 : ℝ)) = 1.0001 by norm_num, Real.log_pow]
    norm_num
  have e1 : TickCalculator.price_to_tick ((10001 : ℝ) ^ 4 / 10 ^ 16) 18 18 = -4 := by
    rw [price_to_tick_pos_eq _ _ _ hadj]
    have hv : tick_formula ((10001 : ℝ) ^ 4 / 10 ^ 16) 18 18 = -4 := by
      rw [tick_formula_eq _ _ _ hadj, hloga, mul_div_assoc, div_self hLne, mul_one]
    rw [hv, show (-4 : ℝ) = ((-4 : ℤ) : ℝ) by norm_num, pyInt_intCast]
    norm_num [MIN_TICK, MAX_TICK]
  have e2 : price_utils.price_to_tick ((10001 : ℝ) ^ 4 / 10 ^ 16) 18 18 =
      some (-2) := by
    rw [price_to_tick_module_eq _ _ _ hadj, hloga]
    have hv2 : (4 : ℝ) * Real.log 1.0001 / (2 * Real.log 1.0001) = 2 := by
      field_simp
      ring
    rw [hv2, show (-2 : ℝ) = ((-2 : ℤ) : ℝ) by norm_num, pyInt_intCast]
  refine ⟨e1, e2, ?_⟩
  rw [e1, e2]
  intro hcon
  exact absurd (Option.some.inj hcon) (by norm_num)
